import Mathlib

/-
  Verification of the inspector-jake connection lifecycle manager.

  Shallow embedding of:
    packages/chrome-extension/src/background/ws-client.ts
    packages/chrome-extension/src/devtools/composables/useConnection.ts

  The background module keeps a single mutable connection slot
  (currentConnection), two heartbeat timer handles, and a keepalive alarm.
  We model the WebSocket layer as a table of sockets with ready states; the
  handlers registered in connectToSession become functions on a global state,
  and the asynchronous environment (transport events, timer firings, calls
  from the UI) becomes an Event type interpreted by a step function.
-/

namespace InspectorJake

/-- WebSocket readyState constants. -/
inductive ReadyState
  | CONNECTING
  | OPEN
  | CLOSING
  | CLOSED
deriving DecidableEq

/-- One WebSocket object created by connectToSession. The sessionName, port
and tabId fields record the arguments captured by the closures (onopen,
instance methods) registered on this socket. -/
structure Socket where
  sid : Nat
  readyState : ReadyState
  sessionName : String
  port : Nat
  tabIdArg : Int
deriving DecidableEq

/-- The currentConnection record of ws-client.ts. -/
structure Connection where
  ws : Nat
  sessionName : String
  port : Nat
  tabId : Option Int
deriving DecidableEq

/-- Return type of getConnectionStatus, also the ConnectionStatus interface
of useConnection.ts. -/
structure ConnectionStatus where
  connected : Bool
  sessionName : Option String
  tabId : Option Int
deriving DecidableEq

/-- A parsed inbound JSON object: its type and id discriminator fields,
either possibly absent. -/
structure ToolReq where
  rtype : Option String
  rid : Option String
deriving DecidableEq

/-- The tab payload of an EXTENSION_STATUS frame. -/
structure TabPayload where
  id : Int
  title : String
  url : String
deriving DecidableEq

/-- Outbound frames written to a socket. Tool responses are kept opaque
(the dispatcher is an external collaborator). -/
inductive Frame
  | ping
  | extensionStatus (tab : Option TabPayload)
  | toolResponse (body : String)
deriving DecidableEq

/-- Result of chrome.tabs.get: title and url may each be absent. -/
structure TabRec where
  title : Option String
  url : Option String
deriving DecidableEq

/-- Global mutable state of ws-client.ts, together with the socket table and
observable logs: frames sent per socket, requests forwarded to the external
dispatcher (with the tab argument passed), CONNECTION_CLOSED delivery
attempts (the Bool records whether a listener received it), and rejected
connect promises. -/
structure WsState where
  currentConnection : Option Connection
  heartbeatInterval : Option Nat
  heartbeatTimeout : Option Nat
  keepaliveAlarm : Bool
  sockets : List Socket
  nextSid : Nat
  sent : List (Nat × Frame)
  dispatched : List (ToolReq × Option Int)
  closedNotices : List Bool
  rejections : List Nat
deriving DecidableEq

def HEARTBEAT_INTERVAL_MS : Nat := 15000
def HEARTBEAT_TIMEOUT_MS : Nat := 10000
def STATUS_POLL_INTERVAL_MS : Nat := 8000

/-- Look a socket up by id. -/
def findSock : List Socket → Nat → Option Socket
  | [], _ => none
  | k :: ks, w => if k.sid = w then some k else findSock ks w

/-- readyState of socket w; a socket that does not exist reads as CLOSED. -/
def readyOf (l : List Socket) (w : Nat) : ReadyState :=
  match findSock l w with
  | some k => k.readyState
  | none => ReadyState.CLOSED

/-- Overwrite the readyState of socket w. -/
def setReadyList (l : List Socket) (w : Nat) (r : ReadyState) : List Socket :=
  l.map (fun k => if k.sid = w then { k with readyState := r } else k)

def setReady (s : WsState) (w : Nat) (r : ReadyState) : WsState :=
  { s with sockets := setReadyList s.sockets w r }

/-- ws.close(): moves a CONNECTING or OPEN socket to CLOSING; a no-op on a
socket already CLOSING or CLOSED. -/
def closeSocket (s : WsState) (w : Nat) : WsState :=
  match readyOf s.sockets w with
  | ReadyState.CONNECTING => setReady s w ReadyState.CLOSING
  | ReadyState.OPEN => setReady s w ReadyState.CLOSING
  | _ => s

/-- ws.send(frame): delivered only on an OPEN socket, silently discarded
otherwise. -/
def wsSend (s : WsState) (w : Nat) (f : Frame) : WsState :=
  if readyOf s.sockets w = ReadyState.OPEN then
    { s with sent := s.sent ++ [(w, f)] }
  else s

-- --- Keepalive alarm management ---

def startKeepaliveAlarm (s : WsState) : WsState :=
  { s with keepaliveAlarm := true }

def stopKeepaliveAlarm (s : WsState) : WsState :=
  { s with keepaliveAlarm := false }

-- --- Application-level heartbeat ---

def stopHeartbeat (s : WsState) : WsState :=
  { s with heartbeatInterval := none, heartbeatTimeout := none }

/-- startHeartbeat(ws): stops any previous heartbeat, then installs the
recurring interval whose closure captures socket w. -/
def startHeartbeat (w : Nat) (s : WsState) : WsState :=
  { stopHeartbeat s with heartbeatInterval := some w }

/-- One firing of the heartbeat interval callback for socket w: only if the
socket is OPEN, clear any lingering pong timeout, send a ping, and arm a
fresh pong timeout (whose closure captures w). -/
def heartbeatCycle (w : Nat) (s : WsState) : WsState :=
  if readyOf s.sockets w = ReadyState.OPEN then
    let s1 := { s with heartbeatTimeout := none }
    let s2 := wsSend s1 w Frame.ping
    { s2 with heartbeatTimeout := some w }
  else s

def handlePong (s : WsState) : WsState :=
  { s with heartbeatTimeout := none }

-- --- CONNECTION_CLOSED notification ---

/-- chrome.runtime.sendMessage: fails when no listener (popup or panel) is
present. -/
def sendRuntimeMessage (listener : Bool) : Except String Unit :=
  if listener then Except.ok () else Except.error "no receiving end"

/-- Emit CONNECTION_CLOSED; the .catch in the source swallows a delivery
failure, so both outcomes just record the attempt. -/
def tryNotifyClosed (listener : Bool) (s : WsState) : WsState :=
  match sendRuntimeMessage listener with
  | Except.ok _ => { s with closedNotices := s.closedNotices ++ [true] }
  | Except.error _ => { s with closedNotices := s.closedNotices ++ [false] }

-- --- Keepalive alarm handler ---

/-- handleKeepaliveAlarm of ws-client.ts. -/
def handleKeepaliveAlarm (listener : Bool) (s : WsState) : WsState :=
  match s.currentConnection with
  | none => stopKeepaliveAlarm s
  | some c =>
    if readyOf s.sockets c.ws ≠ ReadyState.OPEN then
      tryNotifyClosed listener
        (stopKeepaliveAlarm (stopHeartbeat { s with currentConnection := none }))
    else s

-- --- connectToSession and its registered handlers ---

/-- The synchronous body of connectToSession: tear down any existing
connection (stop heartbeat, stop keepalive, close its transport, clear the
slot), then create a new CONNECTING socket capturing the call arguments. -/
def connectToSession (name : String) (port : Nat) (tabId : Int)
    (s : WsState) : WsState :=
  let s1 :=
    match s.currentConnection with
    | some c =>
      { closeSocket (stopKeepaliveAlarm (stopHeartbeat s)) c.ws with
          currentConnection := none }
    | none => s
  { s1 with
      sockets := s1.sockets ++ [⟨s1.nextSid, ReadyState.CONNECTING, name, port, tabId⟩],
      nextSid := s1.nextSid + 1 }

/-- String coalescing of the source, value || "Unknown": an absent or empty
title or url becomes the sentinel. -/
def jsOrUnknown (o : Option String) : String :=
  match o with
  | none => "Unknown"
  | some v => if v = "" then "Unknown" else v

/-- The sendStatusUpdate instance method: sends an EXTENSION_STATUS frame
only while the captured socket is OPEN. -/
def sendStatusUpdate (w : Nat) (tab : Option TabPayload) (s : WsState) : WsState :=
  if readyOf s.sockets w = ReadyState.OPEN then
    wsSend s w (Frame.extensionStatus tab)
  else s

/-- ws.onopen for socket w (tabs models chrome.tabs.get): install the
Connection, start keepalive and heartbeat, then send the initial status
message for the captured tabId if the tab lookup yields a record. Fires only
on a CONNECTING socket. -/
def wsOnOpen (tabs : Int → Option TabRec) (w : Nat) (s : WsState) : WsState :=
  match findSock s.sockets w with
  | none => s
  | some k =>
    if k.readyState = ReadyState.CONNECTING then
      let s1 := setReady s w ReadyState.OPEN
      let s2 := { s1 with
        currentConnection := some ⟨w, k.sessionName, k.port, some k.tabIdArg⟩ }
      let s3 := startHeartbeat w (startKeepaliveAlarm s2)
      match tabs k.tabIdArg with
      | none => s3
      | some t =>
        sendStatusUpdate w
          (some ⟨k.tabIdArg, jsOrUnknown t.title, jsOrUnknown t.url⟩) s3
    else s

/-- The value of currentConnection?.tabId || null: null when there is no
connection, when tabId is null, and also when tabId is the falsy number 0. -/
def jsTabOrNull (s : WsState) : Option Int :=
  match s.currentConnection with
  | none => none
  | some c =>
    match c.tabId with
    | none => none
    | some t => if t = 0 then none else some t

/-- An inbound frame: either unparseable text or a parsed object. -/
inductive Inbound
  | malformed
  | frame (ftype : Option String) (fid : Option String)
deriving DecidableEq

/-- ws.onmessage for socket w. A parse failure is logged and dropped. A pong
cancels the pending heartbeat timeout. Anything else is forwarded to the
external dispatcher disp together with currentConnection?.tabId || null, and
the response is sent back over the same socket. -/
def wsOnMessage (disp : ToolReq → Option Int → String) (w : Nat)
    (inb : Inbound) (s : WsState) : WsState :=
  match inb with
  | Inbound.malformed => s
  | Inbound.frame t i =>
    if t = some "pong" then handlePong s
    else
      let req : ToolReq := ⟨t, i⟩
      let tabArg := jsTabOrNull s
      let s1 := { s with dispatched := s.dispatched ++ [(req, tabArg)] }
      wsSend s1 w (Frame.toolResponse (disp req tabArg))

/-- ws.onerror for socket w: logs and rejects the connect promise; touches
no other state. -/
def wsOnError (w : Nat) (s : WsState) : WsState :=
  { s with rejections := s.rejections ++ [w] }

/-- ws.onclose for socket w: the transport marks the socket CLOSED, then the
handler clears the slot, stops heartbeat and keepalive, and emits a
best-effort CONNECTION_CLOSED — unconditionally, with no check that w is the
socket of the current Connection. -/
def wsOnClose (listener : Bool) (w : Nat) (s : WsState) : WsState :=
  let s0 := setReady s w ReadyState.CLOSED
  tryNotifyClosed listener
    (stopKeepaliveAlarm (stopHeartbeat { s0 with currentConnection := none }))

/-- The disconnect closure of a WsClientInstance for socket w: closes its
own socket and unconditionally clears the global slot. -/
def instanceDisconnect (w : Nat) (s : WsState) : WsState :=
  { closeSocket s w with currentConnection := none }

-- --- Module-level operations ---

/-- getConnectionStatus of ws-client.ts. -/
def getConnectionStatus (s : WsState) : ConnectionStatus :=
  match s.currentConnection with
  | none => ⟨false, none, none⟩
  | some c =>
    if readyOf s.sockets c.ws = ReadyState.OPEN then
      ⟨true, some c.sessionName, c.tabId⟩
    else ⟨false, none, none⟩

/-- updateConnectedTab of ws-client.ts. -/
def updateConnectedTab (tabId : Int) (s : WsState) : WsState :=
  match s.currentConnection with
  | none => s
  | some c => { s with currentConnection := some { c with tabId := some tabId } }

/-- disconnectSession of ws-client.ts. -/
def disconnectSession (s : WsState) : WsState :=
  match s.currentConnection with
  | none => s
  | some c =>
    { closeSocket (stopKeepaliveAlarm (stopHeartbeat s)) c.ws with
        currentConnection := none }

-- --- Event interpretation ---

/-- Asynchronous occurrences interleaved by the environment: calls from the
rest of the extension, transport events, and timer firings. -/
inductive Event
  | connectCall (name : String) (port : Nat) (tabId : Int)
  | openEvt (w : Nat)
  | closeEvt (w : Nat)
  | errorEvt (w : Nat)
  | messageEvt (w : Nat) (inb : Inbound)
  | hbIntervalFire
  | hbTimeoutFire
  | keepaliveFire
  | disconnectCall
  | instDisconnect (w : Nat)
  | updateTabCall (tabId : Int)
deriving DecidableEq

/-- One step: run the handler the event targets, guarded by the conditions
under which the event can occur (a close event fires once per socket, timer
callbacks fire only while armed, the keepalive listener only while the alarm
is registered). -/
def step (tabs : Int → Option TabRec) (disp : ToolReq → Option Int → String)
    (listener : Bool) (s : WsState) (e : Event) : WsState :=
  match e with
  | Event.connectCall name port tabId => connectToSession name port tabId s
  | Event.openEvt w => wsOnOpen tabs w s
  | Event.closeEvt w =>
    if readyOf s.sockets w = ReadyState.CLOSED then s else wsOnClose listener w s
  | Event.errorEvt w =>
    if (findSock s.sockets w).isSome then wsOnError w s else s
  | Event.messageEvt w inb =>
    if readyOf s.sockets w = ReadyState.OPEN ∨ readyOf s.sockets w = ReadyState.CLOSING
    then wsOnMessage disp w inb s else s
  | Event.hbIntervalFire =>
    match s.heartbeatInterval with
    | some w => heartbeatCycle w s
    | none => s
  | Event.hbTimeoutFire =>
    match s.heartbeatTimeout with
    | some w => closeSocket s w
    | none => s
  | Event.keepaliveFire =>
    if s.keepaliveAlarm then handleKeepaliveAlarm listener s else s
  | Event.disconnectCall => disconnectSession s
  | Event.instDisconnect w =>
    if (findSock s.sockets w).isSome then instanceDisconnect w s else s
  | Event.updateTabCall tabId => updateConnectedTab tabId s

def run (tabs : Int → Option TabRec) (disp : ToolReq → Option Int → String)
    (listener : Bool) (s : WsState) (evs : List Event) : WsState :=
  evs.foldl (step tabs disp listener) s

/-- The state at extension startup: no connection, no timers, no sockets. -/
def initialState : WsState :=
  ⟨none, none, none, false, [], 0, [], [], [], []⟩

-- --- UI side: useConnection.ts ---

/-- The slice of useConnection state the status poller reads and writes: the
cached ConnectionStatus and whether the poll interval is armed. -/
structure UiState where
  connectionStatus : ConnectionStatus
  polling : Bool
deriving DecidableEq

def stopStatusPolling (u : UiState) : UiState :=
  { u with polling := false }

/-- handleConnectionClosed of useConnection.ts: force-clear the cached
status and stop polling. -/
def handleConnectionClosed (u : UiState) : UiState :=
  stopStatusPolling { u with connectionStatus := ⟨false, none, none⟩ }

/-- The body of the setInterval callback in startStatusPolling, applied to
the authoritative status auth returned by GET_CONNECTION_STATUS. -/
def pollStep (auth : ConnectionStatus) (u : UiState) : UiState :=
  if u.connectionStatus.connected = true ∧ auth.connected = false then
    handleConnectionClosed u
  else { u with connectionStatus := auth }

end InspectorJake


namespace InspectorJake

-- --- Fixed collaborators and states used by concrete scenarios ---

/-- A tab-info collaborator that can never supply a tab record. -/
def tabs0 : Int → Option TabRec := fun _ => none

/-- A tab-info collaborator that yields a record with no title. -/
def tabs1 : Int → Option TabRec := fun _ => some ⟨none, some "http://x"⟩

/-- An opaque dispatcher. -/
def disp0 : ToolReq → Option Int → String := fun _ _ => ""

-- --- Basic lemmas about the socket table ---

theorem findSock_isSome_of_readyOf_open (l : List Socket) (w : Nat)
    (h : readyOf l w = ReadyState.OPEN) : (findSock l w).isSome := by
  unfold readyOf at h
  cases hf : findSock l w with
  | none => rw [hf] at h; exact absurd h (by simp)
  | some k => simp [hf]

theorem readyOf_setReadyList_self (l : List Socket) (w : Nat) (r : ReadyState) :
    readyOf (setReadyList l w r) w
      = if (findSock l w).isSome then r else ReadyState.CLOSED := by
  induction l with
  | nil => simp [setReadyList, readyOf, findSock]
  | cons k ks ih =>
    by_cases hk : k.sid = w
    · simp [setReadyList, readyOf, findSock, hk]
    · simpa [setReadyList, readyOf, findSock, hk] using ih

theorem modReady_sid (k : Socket) (w : Nat) (r : ReadyState) :
    (if k.sid = w then { k with readyState := r } else k).sid = k.sid := by
  split <;> rfl

theorem findSock_sid (l : List Socket) (w : Nat) (k : Socket)
    (h : findSock l w = some k) : k.sid = w := by
  induction l with
  | nil => simp [findSock] at h
  | cons a as ih =>
    by_cases ha : a.sid = w
    · simp [findSock, ha] at h
      rw [← h]; exact ha
    · simp [findSock, ha] at h
      exact ih h

theorem findSock_setReadyList (l : List Socket) (w v : Nat) (r : ReadyState) :
    findSock (setReadyList l w r) v
      = Option.map (fun k => if k.sid = w then { k with readyState := r } else k)
          (findSock l v) := by
  induction l with
  | nil => rfl
  | cons k ks ih =>
    simp only [setReadyList, List.map_cons] at *
    simp only [findSock, modReady_sid]
    by_cases hv : k.sid = v
    · simp [hv]
    · simp only [hv, if_false]
      exact ih

theorem readyOf_setReadyList_cases (l : List Socket) (w v : Nat) (r : ReadyState) :
    readyOf (setReadyList l w r) v = readyOf l v
      ∨ readyOf (setReadyList l w r) v = r := by
  unfold readyOf
  rw [findSock_setReadyList]
  cases hf : findSock l v with
  | none => left; rfl
  | some k =>
    by_cases hk : k.sid = w
    · right; simp [hk]
    · left; simp [hk]

-- --- Projection lemmas: which fields each operation touches ---

theorem closeSocket_currentConnection (s : WsState) (w : Nat) :
    (closeSocket s w).currentConnection = s.currentConnection := by
  unfold closeSocket
  split <;> rfl

theorem closeSocket_heartbeat (s : WsState) (w : Nat) :
    (closeSocket s w).heartbeatInterval = s.heartbeatInterval
      ∧ (closeSocket s w).heartbeatTimeout = s.heartbeatTimeout
      ∧ (closeSocket s w).keepaliveAlarm = s.keepaliveAlarm := by
  unfold closeSocket
  split <;> exact ⟨rfl, rfl, rfl⟩

theorem readyOf_closeSocket_self (s : WsState) (w : Nat) :
    readyOf (closeSocket s w).sockets w ≠ ReadyState.OPEN := by
  unfold closeSocket
  split
  all_goals first
    | (rw [setReady]
       show readyOf (setReadyList s.sockets w ReadyState.CLOSING) w ≠ ReadyState.OPEN
       rw [readyOf_setReadyList_self]
       split <;> simp)
    | (intro hcon; simp_all)

theorem readyOf_closeSocket_not_open (s : WsState) (w v : Nat)
    (h : readyOf s.sockets v ≠ ReadyState.OPEN) :
    readyOf (closeSocket s w).sockets v ≠ ReadyState.OPEN := by
  unfold closeSocket
  split
  all_goals try exact h
  all_goals
    rw [setReady]
    rcases readyOf_setReadyList_cases s.sockets w v ReadyState.CLOSING with hc | hc <;>
      rw [hc] <;> simp_all

theorem wsSend_fields (s : WsState) (w : Nat) (f : Frame) :
    (wsSend s w f).currentConnection = s.currentConnection
      ∧ (wsSend s w f).sockets = s.sockets
      ∧ (wsSend s w f).heartbeatInterval = s.heartbeatInterval
      ∧ (wsSend s w f).keepaliveAlarm = s.keepaliveAlarm := by
  unfold wsSend
  split <;> exact ⟨rfl, rfl, rfl, rfl⟩

theorem tryNotifyClosed_eq (L : Bool) (s : WsState) :
    tryNotifyClosed L s = { s with closedNotices := s.closedNotices ++ [L] } := by
  cases L <;> rfl

theorem wsOnClose_eq (L : Bool) (w : Nat) (s : WsState) :
    wsOnClose L w s =
      { currentConnection := none
        heartbeatInterval := none
        heartbeatTimeout := none
        keepaliveAlarm := false
        sockets := setReadyList s.sockets w ReadyState.CLOSED
        nextSid := s.nextSid
        sent := s.sent
        dispatched := s.dispatched
        closedNotices := s.closedNotices ++ [L]
        rejections := s.rejections } := by
  cases L <;> rfl

-- --- The disconnected-status invariant ---

/-- Either no Connection is installed, or its transport is no longer OPEN:
exactly the condition under which getConnectionStatus reports disconnected. -/
def Disconnected (s : WsState) : Prop :=
  ∀ c, s.currentConnection = some c → readyOf s.sockets c.ws ≠ ReadyState.OPEN

theorem getConnectionStatus_of_disconnected (s : WsState) (h : Disconnected s) :
    getConnectionStatus s = ⟨false, none, none⟩ := by
  unfold getConnectionStatus
  cases hc : s.currentConnection with
  | none => rfl
  | some c => simp [h c hc]

/-- Events that install an open connection into the slot. -/
def isOpenEvt : Event → Bool
  | Event.openEvt _ => true
  | _ => false

end InspectorJake

namespace InspectorJake

theorem wsOnMessage_fields (disp : ToolReq → Option Int → String) (w : Nat)
    (inb : Inbound) (s : WsState) :
    (wsOnMessage disp w inb s).currentConnection = s.currentConnection
      ∧ (wsOnMessage disp w inb s).sockets = s.sockets := by
  cases inb with
  | malformed => exact ⟨rfl, rfl⟩
  | frame t i =>
    by_cases ht : t = some "pong"
    · subst ht
      exact ⟨rfl, rfl⟩
    · constructor
      · simp only [wsOnMessage, if_neg ht]
        exact (wsSend_fields _ w _).1
      · simp only [wsOnMessage, if_neg ht]
        exact (wsSend_fields _ w _).2.1

theorem heartbeatCycle_fields (w : Nat) (s : WsState) :
    (heartbeatCycle w s).currentConnection = s.currentConnection
      ∧ (heartbeatCycle w s).sockets = s.sockets := by
  unfold heartbeatCycle
  split
  · exact ⟨(wsSend_fields _ w _).1, (wsSend_fields _ w _).2.1⟩
  · exact ⟨rfl, rfl⟩

/-- No event other than a transport-open can make getConnectionStatus report
connected again. -/
theorem step_preserves_disconnected (tabs : Int → Option TabRec)
    (disp : ToolReq → Option Int → String) (listener : Bool)
    (s : WsState) (e : Event) (he : isOpenEvt e = false)
    (hP : Disconnected s) :
    Disconnected (step tabs disp listener s e) := by
  cases e with
  | connectCall name port tabId =>
    intro c hc
    cases hcc : s.currentConnection with
    | none => simp [step, connectToSession, hcc] at hc
    | some c0 => simp [step, connectToSession, hcc] at hc
  | openEvt w => simp [isOpenEvt] at he
  | closeEvt w =>
    simp only [step]
    split
    · exact hP
    · rw [wsOnClose_eq]
      intro c hc
      simp at hc
  | errorEvt w =>
    simp only [step]
    split
    · intro c hc
      exact hP c hc
    · exact hP
  | messageEvt w inb =>
    simp only [step]
    split
    · intro c hc
      rw [(wsOnMessage_fields disp w inb s).1] at hc
      rw [(wsOnMessage_fields disp w inb s).2]
      exact hP c hc
    · exact hP
  | hbIntervalFire =>
    simp only [step]
    cases hI : s.heartbeatInterval with
    | none => exact hP
    | some w =>
      intro c hc
      rw [(heartbeatCycle_fields w s).1] at hc
      rw [(heartbeatCycle_fields w s).2]
      exact hP c hc
  | hbTimeoutFire =>
    simp only [step]
    cases hT : s.heartbeatTimeout with
    | none => exact hP
    | some w =>
      intro c hc
      rw [closeSocket_currentConnection] at hc
      exact readyOf_closeSocket_not_open s w c.ws (hP c hc)
  | keepaliveFire =>
    simp only [step]
    split
    · unfold handleKeepaliveAlarm
      split
      · rename_i heq
        intro c hc
        simp [stopKeepaliveAlarm, heq] at hc
      · rename_i c0 heq
        split
        · rw [tryNotifyClosed_eq]
          intro c hc
          simp [stopKeepaliveAlarm, stopHeartbeat] at hc
        · exact hP
    · exact hP
  | disconnectCall =>
    simp only [step]
    unfold disconnectSession
    cases hcc : s.currentConnection with
    | none => exact hP
    | some c0 =>
      intro c hc
      simp at hc
  | instDisconnect w =>
    simp only [step]
    split
    · intro c hc
      unfold instanceDisconnect at hc
      simp at hc
    · exact hP
  | updateTabCall tabId =>
    simp only [step]
    unfold updateConnectedTab
    cases hcc : s.currentConnection with
    | none => exact hP
    | some c0 =>
      intro c hc
      simp only [] at hc
      injection hc with h
      subst h
      exact hP c0 hcc

theorem run_preserves_disconnected (tabs : Int → Option TabRec)
    (disp : ToolReq → Option Int → String) (listener : Bool)
    (s : WsState) (evs : List Event)
    (he : ∀ e ∈ evs, isOpenEvt e = false) (hP : Disconnected s) :
    Disconnected (run tabs disp listener s evs) := by
  induction evs generalizing s with
  | nil => exact hP
  | cons e es ih =>
    show Disconnected (run tabs disp listener (step tabs disp listener s e) es)
    exact ih (step tabs disp listener s e)
      (fun x hx => he x (List.mem_cons_of_mem e hx))
      (step_preserves_disconnected tabs disp listener s e
        (he e (List.mem_cons_self e es)) hP)

end InspectorJake

namespace InspectorJake

-- --- Concrete scenario states ---

/-- Established connection: connect("s", 1, 42) followed by transport-open. -/
def estState : WsState :=
  run tabs0 disp0 false initialState
    [Event.connectCall "s" 1 42, Event.openEvt 0]

/-- Two rapid connect calls for different sessions, each transport opening
right after its connect call. -/
def rapidReconnectTrace : List Event :=
  [Event.connectCall "sessionA" 9001 42, Event.openEvt 0,
   Event.connectCall "sessionB" 9002 43, Event.openEvt 1]

def rapidReconnectState : WsState :=
  run tabs0 disp0 false initialState rapidReconnectTrace

/-- The same scenario after the first socket, closed by the second connect,
finally delivers its close event. -/
def staleCloseState : WsState :=
  step tabs0 disp0 false rapidReconnectState (Event.closeEvt 0)

/-- Established connection whose heartbeat has sent a ping and armed the
pong timeout. -/
def pingedState : WsState :=
  run tabs0 disp0 false initialState
    [Event.connectCall "s" 1 42, Event.openEvt 0, Event.hbIntervalFire]

-- --- Claims ---

/-- Claim C1. After two rapid connect calls for different sessions the state
does briefly match the claim (one Connection with the second call
parameters, first transport closed, keepalive and heartbeat running), but
the close event of the first transport is still pending, and when it is
delivered the onclose handler of ws-client.ts unconditionally clears the
slot, stops the heartbeat and stops the keepalive of the second, still OPEN
connection: the final state has no Connection at all, refuting the claimed
final state. -/
theorem C1_stale_close_tears_down_second :
    (rapidReconnectState.currentConnection = some ⟨1, "sessionB", 9002, some 43⟩
      ∧ rapidReconnectState.keepaliveAlarm = true
      ∧ rapidReconnectState.heartbeatInterval = some 1
      ∧ readyOf rapidReconnectState.sockets 0 = ReadyState.CLOSING)
    ∧ (staleCloseState.currentConnection = none
      ∧ staleCloseState.keepaliveAlarm = false
      ∧ staleCloseState.heartbeatInterval = none
      ∧ readyOf staleCloseState.sockets 1 = ReadyState.OPEN) := by
  decide

/-- Claim C2. If the pong timeout armed for the socket of the current
Connection fires (no pong was observed within the configured 10000 ms
timeout), the transport is closed, and every subsequent getConnectionStatus
call, after any further events that do not include a transport-open, returns
connected false. -/
theorem C2_heartbeat_timeout_closes (tabs : Int → Option TabRec)
    (disp : ToolReq → Option Int → String) (listener : Bool)
    (s : WsState) (w : Nat) (tr : List Event)
    (harm : s.heartbeatTimeout = some w)
    (hcur : s.currentConnection = none
      ∨ Option.map Connection.ws s.currentConnection = some w)
    (htr : ∀ e ∈ tr, isOpenEvt e = false) :
    HEARTBEAT_TIMEOUT_MS = 10000
    ∧ readyOf (step tabs disp listener s Event.hbTimeoutFire).sockets w
        ≠ ReadyState.OPEN
    ∧ getConnectionStatus
        (run tabs disp listener (step tabs disp listener s Event.hbTimeoutFire) tr)
        = ⟨false, none, none⟩ := by
  have hstep : step tabs disp listener s Event.hbTimeoutFire = closeSocket s w := by
    simp [step, harm]
  refine ⟨rfl, ?_, ?_⟩
  · rw [hstep]
    exact readyOf_closeSocket_self s w
  · apply getConnectionStatus_of_disconnected
    apply run_preserves_disconnected _ _ _ _ _ htr
    rw [hstep]
    intro c hc
    rw [closeSocket_currentConnection] at hc
    rcases hcur with h0 | h0
    · rw [h0] at hc
      cases hc
    · rw [hc] at h0
      simp only [Option.map_some'] at h0
      injection h0 with h0
      rw [h0]
      exact readyOf_closeSocket_self s w

theorem C2_heartbeat_timeout_closes_witness :
    getConnectionStatus
      (run tabs0 disp0 false (step tabs0 disp0 false pingedState Event.hbTimeoutFire)
        [Event.keepaliveFire])
      = ⟨false, none, none⟩ :=
  (C2_heartbeat_timeout_closes tabs0 disp0 false pingedState 0 [Event.keepaliveFire]
    (by decide) (by decide) (by decide)).2.2

/-- Claim C7. disconnectSession with no active Connection changes nothing,
and after any disconnectSession call getConnectionStatus reports connected
false with no session name and no tab id. -/
theorem C7_disconnect_idempotent (s : WsState) :
    (s.currentConnection = none → disconnectSession s = s)
    ∧ getConnectionStatus (disconnectSession s) = ⟨false, none, none⟩ := by
  constructor
  · intro h
    simp [disconnectSession, h]
  · cases h : s.currentConnection with
    | none => simp [disconnectSession, h, getConnectionStatus]
    | some c => simp [disconnectSession, h, getConnectionStatus]

theorem C7_disconnect_idempotent_witness :
    disconnectSession initialState = initialState :=
  (C7_disconnect_idempotent initialState).1 rfl

/-- Claim C8. getConnectionStatus returns connected false with null fields
whenever there is no Connection or its transport is not OPEN, and otherwise
the live session and tab identifiers; in particular after
connect("sessionX", 9001, 42) succeeds it returns exactly those values. -/
theorem C8_get_status (s : WsState) :
    (s.currentConnection = none → getConnectionStatus s = ⟨false, none, none⟩)
    ∧ (∀ c, s.currentConnection = some c →
        readyOf s.sockets c.ws ≠ ReadyState.OPEN →
        getConnectionStatus s = ⟨false, none, none⟩)
    ∧ (∀ c, s.currentConnection = some c →
        readyOf s.sockets c.ws = ReadyState.OPEN →
        getConnectionStatus s = ⟨true, some c.sessionName, c.tabId⟩)
    ∧ getConnectionStatus (run tabs0 disp0 false initialState
        [Event.connectCall "sessionX" 9001 42, Event.openEvt 0])
      = ⟨true, some "sessionX", some 42⟩ := by
  refine ⟨?_, ?_, ?_, by decide⟩
  · intro h
    simp [getConnectionStatus, h]
  · intro c hc hr
    simp [getConnectionStatus, hc, hr]
  · intro c hc hr
    simp [getConnectionStatus, hc, hr]

theorem C8_get_status_witness :
    getConnectionStatus initialState = ⟨false, none, none⟩
    ∧ getConnectionStatus estState = ⟨true, some "s", some 42⟩ :=
  ⟨(C8_get_status initialState).1 rfl,
   (C8_get_status estState).2.2.1 ⟨0, "s", 1, some 42⟩ (by decide) (by decide)⟩

/-- Claim C10. The disconnect closure of a WsClientInstance closes the
socket it captured (OPEN becomes CLOSING) and unconditionally empties the
global connection slot, whatever Connection the slot currently holds. -/
theorem C10_instance_disconnect (s : WsState) (w : Nat) :
    (instanceDisconnect w s).currentConnection = none
    ∧ (readyOf s.sockets w = ReadyState.OPEN →
        readyOf (instanceDisconnect w s).sockets w = ReadyState.CLOSING) := by
  constructor
  · rfl
  · intro h
    show readyOf (closeSocket s w).sockets w = ReadyState.CLOSING
    unfold closeSocket
    rw [h]
    show readyOf (setReadyList s.sockets w ReadyState.CLOSING) w = ReadyState.CLOSING
    rw [readyOf_setReadyList_self]
    rw [if_pos (findSock_isSome_of_readyOf_open s.sockets w h)]

theorem C10_instance_disconnect_witness :
    (instanceDisconnect 0 rapidReconnectState).currentConnection = none
    ∧ readyOf (instanceDisconnect 1 rapidReconnectState).sockets 1
        = ReadyState.CLOSING :=
  ⟨(C10_instance_disconnect rapidReconnectState 0).1,
   (C10_instance_disconnect rapidReconnectState 1).2 (by decide)⟩

end InspectorJake

namespace InspectorJake

/-- Connection whose transport was force-closed by the pong timeout: the
slot still holds the Connection but the socket is CLOSING. -/
def staleState : WsState :=
  run tabs0 disp0 false initialState
    [Event.connectCall "s" 1 42, Event.openEvt 0,
     Event.hbIntervalFire, Event.hbTimeoutFire]

/-- State right after connectToSession, before the transport opened. -/
def preOpenState : WsState :=
  run tabs0 disp0 false initialState [Event.connectCall "sessionX" 9001 42]

/-- Established connection whose tabId is the falsy number 0. -/
def tabZeroState : WsState :=
  run tabs0 disp0 false initialState
    [Event.connectCall "s" 1 0, Event.openEvt 0]

/-- UI cache that believes it is connected, with polling armed. -/
def uiConnectedState : UiState := ⟨⟨true, some "s", some 1⟩, true⟩

/-- Claim C3 counterexample: on an established connection, a transport error
event clears nothing and emits nothing — the slot, the keepalive, the
heartbeat interval and the notice log are all untouched, refuting the claim
that an error event performs the close cleanup. -/
theorem C3_error_event_no_cleanup :
    estState.currentConnection = some ⟨0, "s", 1, some 42⟩
    ∧ (step tabs0 disp0 false estState (Event.errorEvt 0)).currentConnection
        = some ⟨0, "s", 1, some 42⟩
    ∧ (step tabs0 disp0 false estState (Event.errorEvt 0)).keepaliveAlarm = true
    ∧ (step tabs0 disp0 false estState (Event.errorEvt 0)).heartbeatInterval = some 0
    ∧ (step tabs0 disp0 false estState (Event.errorEvt 0)).closedNotices = [] := by
  decide

/-- Claim C3 as amended. On a transport close event the manager clears the
slot, stops heartbeat and keepalive, and attempts a CONNECTION_CLOSED
delivery whose failure is swallowed: the cleanup is identical whether or not
a listener is present. On a transport error event the handler only rejects
the connect promise and leaves the slot, the timers, the sockets and the
notices unchanged; the cleanup happens at the close event that follows. -/
theorem C3_close_cleanup_error_inert (tabs : Int → Option TabRec)
    (disp : ToolReq → Option Int → String) (listener : Bool)
    (s : WsState) (w : Nat) :
    (readyOf s.sockets w ≠ ReadyState.CLOSED →
      (step tabs disp listener s (Event.closeEvt w)).currentConnection = none
      ∧ (step tabs disp listener s (Event.closeEvt w)).heartbeatInterval = none
      ∧ (step tabs disp listener s (Event.closeEvt w)).heartbeatTimeout = none
      ∧ (step tabs disp listener s (Event.closeEvt w)).keepaliveAlarm = false
      ∧ (step tabs disp listener s (Event.closeEvt w)).closedNotices
          = s.closedNotices ++ [listener])
    ∧ ((findSock s.sockets w).isSome →
      (step tabs disp listener s (Event.errorEvt w)).currentConnection
          = s.currentConnection
      ∧ (step tabs disp listener s (Event.errorEvt w)).heartbeatInterval
          = s.heartbeatInterval
      ∧ (step tabs disp listener s (Event.errorEvt w)).heartbeatTimeout
          = s.heartbeatTimeout
      ∧ (step tabs disp listener s (Event.errorEvt w)).keepaliveAlarm
          = s.keepaliveAlarm
      ∧ (step tabs disp listener s (Event.errorEvt w)).sockets = s.sockets
      ∧ (step tabs disp listener s (Event.errorEvt w)).closedNotices
          = s.closedNotices
      ∧ (step tabs disp listener s (Event.errorEvt w)).rejections
          = s.rejections ++ [w]) := by
  constructor
  · intro h
    have hstep : step tabs disp listener s (Event.closeEvt w)
        = wsOnClose listener w s := by
      simp [step, h]
    rw [hstep, wsOnClose_eq]
    exact ⟨rfl, rfl, rfl, rfl, rfl⟩
  · intro h
    have hstep : step tabs disp listener s (Event.errorEvt w) = wsOnError w s := by
      simp [step, h]
    rw [hstep]
    exact ⟨rfl, rfl, rfl, rfl, rfl, rfl, rfl⟩

theorem C3_close_cleanup_error_inert_witness :
    (step tabs0 disp0 true estState (Event.closeEvt 0)).keepaliveAlarm = false
    ∧ (step tabs0 disp0 true estState (Event.closeEvt 0)).closedNotices = [true]
    ∧ (step tabs0 disp0 true estState (Event.errorEvt 0)).rejections = [0] :=
  ⟨((C3_close_cleanup_error_inert tabs0 disp0 true estState 0).1 (by decide)).2.2.2.1,
   (((C3_close_cleanup_error_inert tabs0 disp0 true estState 0).1
      (by decide)).2.2.2.2).trans (by decide),
   (((C3_close_cleanup_error_inert tabs0 disp0 true estState 0).2
      (by decide)).2.2.2.2.2.2).trans (by decide)⟩

/-- Claim C4. A keepalive firing with no Connection only deregisters the
alarm, after which a further firing changes nothing; a firing that finds a
Connection with a non-OPEN transport clears the slot, stops the heartbeat,
deregisters the alarm and attempts a closed notice; a firing on a healthy
OPEN connection changes no state. -/
theorem C4_keepalive_firing (tabs : Int → Option TabRec)
    (disp : ToolReq → Option Int → String) (listener : Bool) (s : WsState) :
    (s.currentConnection = none →
      handleKeepaliveAlarm listener s = { s with keepaliveAlarm := false }
      ∧ step tabs disp listener { s with keepaliveAlarm := false }
          Event.keepaliveFire = { s with keepaliveAlarm := false })
    ∧ (∀ c, s.currentConnection = some c →
        readyOf s.sockets c.ws ≠ ReadyState.OPEN →
        handleKeepaliveAlarm listener s =
          { s with currentConnection := none, heartbeatInterval := none,
                   heartbeatTimeout := none, keepaliveAlarm := false,
                   closedNotices := s.closedNotices ++ [listener] })
    ∧ (∀ c, s.currentConnection = some c →
        readyOf s.sockets c.ws = ReadyState.OPEN →
        handleKeepaliveAlarm listener s = s) := by
  refine ⟨?_, ?_, ?_⟩
  · intro h
    constructor
    · simp [handleKeepaliveAlarm, h, stopKeepaliveAlarm]
    · simp [step]
  · intro c hc hr
    simp [handleKeepaliveAlarm, hc, hr, tryNotifyClosed_eq,
      stopKeepaliveAlarm, stopHeartbeat]
  · intro c hc hr
    simp [handleKeepaliveAlarm, hc, hr]

theorem C4_keepalive_firing_witness :
    handleKeepaliveAlarm false initialState
      = { initialState with keepaliveAlarm := false }
    ∧ (handleKeepaliveAlarm false staleState).currentConnection = none
    ∧ handleKeepaliveAlarm false estState = estState :=
  ⟨((C4_keepalive_firing tabs0 disp0 false initialState).1 rfl).1,
   by rw [(C4_keepalive_firing tabs0 disp0 false staleState).2.1
        ⟨0, "s", 1, some 42⟩ (by decide) (by decide)],
   (C4_keepalive_firing tabs0 disp0 false estState).2.2
     ⟨0, "s", 1, some 42⟩ (by decide) (by decide)⟩

/-- Claim C5. On each poll result: if the local cache says connected and the
authoritative answer says disconnected, the poll force-clears the local
status (connected false, no session, no tab) and stops polling; in every
other case the authoritative status is adopted as the new local cache. -/
theorem C5_poll_reconciliation (u : UiState) (auth : ConnectionStatus) :
    (u.connectionStatus.connected = true → auth.connected = false →
      pollStep auth u = ⟨⟨false, none, none⟩, false⟩)
    ∧ (¬(u.connectionStatus.connected = true ∧ auth.connected = false) →
      pollStep auth u = { u with connectionStatus := auth }) := by
  constructor
  · intro h1 h2
    simp [pollStep, h1, h2, handleConnectionClosed, stopStatusPolling]
  · intro h
    simp [pollStep, h]

theorem C5_poll_reconciliation_witness :
    pollStep ⟨false, none, none⟩ uiConnectedState = ⟨⟨false, none, none⟩, false⟩
    ∧ pollStep ⟨true, some "s", some 2⟩ uiConnectedState
        = { uiConnectedState with connectionStatus := ⟨true, some "s", some 2⟩ } :=
  ⟨(C5_poll_reconciliation uiConnectedState ⟨false, none, none⟩).1 rfl rfl,
   (C5_poll_reconciliation uiConnectedState ⟨true, some "s", some 2⟩).2 (by decide)⟩

/-- Claim C6 counterexample: the live Connection carries tab identifier 0,
yet the dispatcher is handed null — the falsy coalescing
currentConnection?.tabId || null drops a 0 tab identifier, refuting the
claim that the dispatcher always receives the live tab identifier. -/
theorem C6_tab_zero_dropped :
    tabZeroState.currentConnection = some ⟨0, "s", 1, some 0⟩
    ∧ (wsOnMessage disp0 0 (Inbound.frame (some "getTitle") (some "1"))
        tabZeroState).dispatched
      = [(⟨some "getTitle", some "1"⟩, none)] := by
  decide

/-- Claim C6 as amended. A pong frame only cancels the pending heartbeat
timeout; any other parseable frame is forwarded to the dispatcher together
with the value of currentConnection?.tabId || null — the live tab identifier
when it is present and nonzero, null otherwise — and the response is sent
back over the same OPEN transport; an unparseable frame changes nothing. In
all three cases the slot and the socket table are untouched. -/
theorem C6_message_routing (disp : ToolReq → Option Int → String)
    (s : WsState) (w : Nat) (t : Option String) (i : Option String) :
    (wsOnMessage disp w (Inbound.frame (some "pong") i) s
      = { s with heartbeatTimeout := none })
    ∧ (t ≠ some "pong" → readyOf s.sockets w = ReadyState.OPEN →
      wsOnMessage disp w (Inbound.frame t i) s
        = { s with
              dispatched := s.dispatched ++ [(⟨t, i⟩, jsTabOrNull s)],
              sent := s.sent
                ++ [(w, Frame.toolResponse (disp ⟨t, i⟩ (jsTabOrNull s)))] })
    ∧ (∀ c tv, s.currentConnection = some c → c.tabId = some tv → tv ≠ 0 →
        jsTabOrNull s = some tv)
    ∧ (wsOnMessage disp w Inbound.malformed s = s) := by
  refine ⟨rfl, ?_, ?_, rfl⟩
  · intro ht hr
    simp only [wsOnMessage, if_neg ht]
    unfold wsSend
    have hr2 : readyOf ({ s with
        dispatched := s.dispatched ++ [(⟨t, i⟩, jsTabOrNull s)] } : WsState).sockets w
        = ReadyState.OPEN := hr
    rw [if_pos hr2]
  · intro c tv hc htv h0
    simp [jsTabOrNull, hc, htv, h0]

theorem C6_message_routing_witness :
    wsOnMessage disp0 0 (Inbound.frame (some "pong") none) estState
      = { estState with heartbeatTimeout := none }
    ∧ wsOnMessage disp0 0 (Inbound.frame (some "screenshot") (some "7")) estState
      = { estState with
            dispatched := estState.dispatched
              ++ [(⟨some "screenshot", some "7"⟩, jsTabOrNull estState)],
            sent := estState.sent
              ++ [(0, Frame.toolResponse
                    (disp0 ⟨some "screenshot", some "7"⟩ (jsTabOrNull estState)))] }
    ∧ jsTabOrNull estState = some 42
    ∧ wsOnMessage disp0 0 Inbound.malformed estState = estState :=
  ⟨(C6_message_routing disp0 estState 0 (some "screenshot") none).1,
   (C6_message_routing disp0 estState 0 (some "screenshot") (some "7")).2.1
     (by decide) (by decide),
   (C6_message_routing disp0 estState 0 (some "screenshot") (some "7")).2.2.1
     ⟨0, "s", 1, some 42⟩ 42 (by decide) rfl (by decide),
   (C6_message_routing disp0 estState 0 (some "screenshot") (some "7")).2.2.2⟩

/-- Claim C9 counterexample: connect("sessionX", 9001, 42) succeeds and the
Connection is installed, but the tab collaborator yields no record for tab
42 and no initial status message — indeed no frame at all — is sent,
refuting the claim that every successful connect sends an initial status
message with Unknown defaults. -/
theorem C9_no_tab_no_message :
    tabs0 42 = none
    ∧ (run tabs0 disp0 false initialState
        [Event.connectCall "sessionX" 9001 42, Event.openEvt 0]).currentConnection
      = some ⟨0, "sessionX", 9001, some 42⟩
    ∧ (run tabs0 disp0 false initialState
        [Event.connectCall "sessionX" 9001 42, Event.openEvt 0]).sent = [] := by
  decide

/-- Claim C9 as amended. On transport-open, when the tab collaborator yields
a record for the captured tab the initial EXTENSION_STATUS frame is sent,
its title and url each defaulting to the sentinel Unknown when missing; when
the collaborator yields nothing, no initial status message is sent. -/
theorem C9_initial_status (tabs : Int → Option TabRec) (s : WsState)
    (w : Nat) (k : Socket) (hf : findSock s.sockets w = some k)
    (hc : k.readyState = ReadyState.CONNECTING) :
    (∀ t, tabs k.tabIdArg = some t →
      (wsOnOpen tabs w s).sent = s.sent
        ++ [(w, Frame.extensionStatus
              (some ⟨k.tabIdArg, jsOrUnknown t.title, jsOrUnknown t.url⟩))])
    ∧ (tabs k.tabIdArg = none → (wsOnOpen tabs w s).sent = s.sent)
    ∧ jsOrUnknown none = "Unknown" := by
  have hopen : readyOf (setReadyList s.sockets w ReadyState.OPEN) w
      = ReadyState.OPEN := by
    rw [readyOf_setReadyList_self]
    rw [if_pos (by rw [hf]; rfl)]
  refine ⟨?_, ?_, rfl⟩
  · intro t ht
    simp only [wsOnOpen, hf, hc, ht, sendStatusUpdate, wsSend,
      startHeartbeat, startKeepaliveAlarm, stopHeartbeat, setReady, hopen]
    simp
  · intro ht
    simp only [wsOnOpen, hf, hc, ht, setReady, startHeartbeat,
      startKeepaliveAlarm, stopHeartbeat]
    simp

theorem C9_initial_status_witness :
    (wsOnOpen tabs1 0 preOpenState).sent
      = preOpenState.sent
        ++ [(0, Frame.extensionStatus (some ⟨42, "Unknown", "http://x"⟩))] :=
  ((C9_initial_status tabs1 preOpenState 0
      ⟨0, ReadyState.CONNECTING, "sessionX", 9001, 42⟩ (by decide) rfl).1
    ⟨none, some "http://x"⟩ rfl).trans (by decide)

end InspectorJake
